import Mathlib

/-!
Verification of the `miniast` AST-builder/unparser library.

This file gives a shallow embedding of the data model and operations of
`miniast` (files `miniast/base.py` and `miniast/source.py`) and proves
properties about them.

Embedding conventions:
* Host AST nodes become the inductive type `Node`.  The constructor names
  mirror the `ast` classes (`Name`, `Attribute`, `Subscript`, `Call`, ...).
  A `custom` constructor stands for a host object whose class has no
  registered visitor method (the visitor dispatches on the class name, so for
  the purposes of rendering only the class name matters).
* The Python value `None`, which legitimately appears in node position
  (e.g. as `ast.Return.value` and inside `to_node`), is embedded as
  `Node.noneObj`; the visitor's `visit_NoneType` rule handles it.
* Host values handed to coercion/builders become the inductive type `PyVal`.
* Fallible operations return `Except Err _` where `Err` records the host
  exception class (`TypeError`, `ValueError`, `AssertionError`,
  `AttributeError`) and message.
-/

/-- `Load`/`Store` reference context tag (`ast.Load` / `ast.Store`). -/
inductive Ctx where
  | load
  | store
deriving Repr, DecidableEq

/-- Comparison operator tags used by the `Comparable` mixin
(`ast.Eq`, `ast.NotEq`, ..., `ast.In`). -/
inductive CmpOp where
  | eq
  | notEq
  | lt
  | ltE
  | gt
  | gtE
  | isOp
  | isNotOp
  | inOp
deriving Repr, DecidableEq

/-- Arithmetic operator tags used by the `BinOp` mixin
(`ast.Add`, `ast.Sub`, ...). -/
inductive ArithOp where
  | add
  | sub
  | mult
  | div
  | floorDiv
  | pow
deriving Repr, DecidableEq

/-- The value of an `ast.NameConstant` (`True`, `False` or `None`). -/
inductive NameConst where
  | trueV
  | falseV
  | noneV
deriving Repr, DecidableEq

/-- Host exception classes raised by the library, with their messages. -/
inductive Err where
  | typeError (msg : String)
  | valueError (msg : String)
  | assertionError (msg : String)
  | attributeError (msg : String)
deriving Repr, DecidableEq

/-- Shallow embedding of the AST node shapes used by `miniast`.

Each constructor corresponds to one `ast` class (or `miniast` subclass —
the subclasses `Name`, `Tuple`, `Attribute`, `Subscript` only add builder
methods, not data, so they share constructors with the plain classes).
`functionDef` carries the `ast.arguments` fields that `miniast` actually
populates: plain argument names (`SpecialArg.arg`), an optional vararg
(an `Args` string, rendered `*name`) and an optional kwarg (a `Kwargs`,
rendered `**name`).
`custom typename` models a hand-crafted host object of class `typename`
for which the visitor has no `visit_<typename>` method. -/
inductive Node where
  | name (id : String) (ctx : Ctx)
  | num (n : Int)
  | strNode (s : String)
  | nameConstant (value : NameConst)
  | noneObj
  | attribute (value : Node) (attr : String) (ctx : Ctx)
  | subscript (value : Node) (slice : Node) (ctx : Ctx)
  | index (value : Node)
  | tupleNode (elts : List Node) (ctx : Ctx)
  | listNode (elts : List Node)
  | dictNode (keys : List Node) (values : List Node)
  | setNode (elts : List Node)
  | call (func : Node) (args : List Node) (keywords : List (String × Node))
  | compare (left : Node) (ops : List CmpOp) (comparators : List Node)
  | binOp (left : Node) (op : ArithOp) (right : Node)
  | assign (targets : List Node) (value : Node)
  | augAssign (target : Node) (op : ArithOp) (value : Node)
  | exprStmt (value : Node)
  | passStmt
  | ifStmt (test : Node) (body : List Node) (orelse : List Node)
  | tryStmt (body : List Node) (handlers : List Node) (orelse : List Node)
      (finalbody : List Node)
  | exceptHandler (type : Option Node) (name : Option String)
      (body : List Node)
  | functionDef (name : String) (args : List String) (vararg : Option String)
      (kwarg : Option String) (body : List Node) (decoratorList : List Node)
  | custom (typename : String)
deriving Repr

/-- Host values that can be handed to `to_node` and the builders: the
supported literal shapes, `None`, already-constructed nodes, and `obj t`
for any other host object of class `t`. -/
inductive PyVal where
  | none
  | str (s : String)
  | int (n : Int)
  | list (elts : List PyVal)
  | tuple (elts : List PyVal)
  | dict (pairs : List (PyVal × PyVal))
  | set (elts : List PyVal)
  | node (n : Node)
  | obj (typename : String)
deriving Repr

mutual

/-- `miniast.base.to_node`: coerce a host value to a node.

Source behaviour: strings become `ast.Str`, ints/floats become `ast.Num`,
lists/tuples/dicts/sets are coerced elementwise, and any other value must
be `None` or an `ast.AST` instance (returned unchanged) — otherwise the
`assert` fails with `AssertionError('value must be None or AST instance,
got <typename>')`.  `None` passes the assert and is returned as-is
(embedded as `Node.noneObj`). -/
def toNode : PyVal → Except Err Node
  | .str s => .ok (.strNode s)
  | .int n => .ok (.num n)
  | .list es => do
      let elts ← toNodeList es
      pure (.listNode elts)
  | .tuple es => do
      let elts ← toNodeList es
      pure (.tupleNode elts .load)
  | .dict ps => do
      let keys ← toNodeKeys ps
      let values ← toNodeValues ps
      pure (.dictNode keys values)
  | .set es => do
      let elts ← toNodeList es
      pure (.setNode elts)
  | .none => .ok .noneObj
  | .node n => .ok n
  | .obj t =>
      .error (.assertionError ("value must be None or AST instance, got " ++ t))

/-- Elementwise coercion, as in `list(map(to_node, value))`. -/
def toNodeList : List PyVal → Except Err (List Node)
  | [] => .ok []
  | v :: vs => do
      let n ← toNode v
      let ns ← toNodeList vs
      pure (n :: ns)

/-- `list(map(to_node, value.keys()))` for a dict. -/
def toNodeKeys : List (PyVal × PyVal) → Except Err (List Node)
  | [] => .ok []
  | (k, _) :: ps => do
      let n ← toNode k
      let ns ← toNodeKeys ps
      pure (n :: ns)

/-- `list(map(to_node, value.values()))` for a dict.  (The source coerces
all keys first, then all values; with well-formed keys the two recursions
compose to the same pairwise traversal.) -/
def toNodeValues : List (PyVal × PyVal) → Except Err (List Node)
  | [] => .ok []
  | (_, v) :: ps => do
      let n ← toNode v
      let ns ← toNodeValues ps
      pure (n :: ns)

end

mutual

/-- `true` iff the value contains no unsupported host object, i.e. it is
built only from the literal categories, `None` and nodes. -/
def supported : PyVal → Bool
  | .none => true
  | .str _ => true
  | .int _ => true
  | .node _ => true
  | .obj _ => false
  | .list es => supportedList es
  | .tuple es => supportedList es
  | .set es => supportedList es
  | .dict ps => supportedPairs ps

def supportedList : List PyVal → Bool
  | [] => true
  | v :: vs => supported v && supportedList vs

def supportedPairs : List (PyVal × PyVal) → Bool
  | [] => true
  | (k, v) :: ps => supported k && supported v && supportedPairs ps

end

/-- `true` for constructors embedding `ast.stmt` subclasses (`isinstance(value,
ast.stmt)` in `to_expr`).  `ast.Expr` is itself a statement; `ExceptHandler`
is an `ast.excepthandler`, not a statement. -/
def Node.isStmtNode : Node → Bool
  | .assign _ _ => true
  | .augAssign _ _ _ => true
  | .exprStmt _ => true
  | .passStmt => true
  | .ifStmt _ _ _ => true
  | .tryStmt _ _ _ _ => true
  | .functionDef _ _ _ _ _ _ => true
  | _ => false

/-- `miniast.base.to_expr`: wrap a non-statement value in `ast.Expr`. -/
def toExpr (value : Node) : Node :=
  if value.isStmtNode then value else .exprStmt value

/-- The assignment-target copy made by `Assignable.store`: the fields of
`self` are copied into a dict, the `ctx` entry is overwritten with
`ast.Store()`, and `type(self)(**fields)` is constructed.  Only the
outermost node is copied; every other field (and hence every child node)
is the very same object as in `self`.  The `Assignable` mixin is present
exactly on the `Name`, `Tuple`, `Attribute` and `Subscript` wrapper
classes; on any other node the attribute lookup `self.store` fails. -/
def storeTarget : Node → Option Node
  | .name id _ => some (.name id .store)
  | .tupleNode elts _ => some (.tupleNode elts .store)
  | .attribute value attr _ => some (.attribute value attr .store)
  | .subscript value slice _ => some (.subscript value slice .store)
  | _ => Option.none

/-- `Assignable.store`: build `ast.Assign(targets=[copy-with-Store-ctx],
value=to_node(value))`. -/
def store (self : Node) (value : PyVal) : Except Err Node :=
  match storeTarget self with
  | some target => do
      let v ← toNode value
      pure (.assign [target] v)
  | Option.none => .error (.attributeError "store")

/-- `IfCond.__call__` (reached from `if_(test)[body]`): a terminal `If`
with the body coerced elementwise through `to_expr` and an empty
else-branch (`If.__init__` defaults `orelse` to `[]`). -/
def ifCall (test : Node) (body : List Node) : Node :=
  .ifStmt test (body.map toExpr) []

/-- `Else.__call__`: rebuild `type(ifstmt)(ifstmt.test, ifstmt.body,
list(map(to_expr, to_list(orelse))))`.  The `else_` property exists only
on the `If` wrapper class; it reads the original statement's fields and
constructs a fresh `If`, discarding any previously attached else-branch. -/
def elseCall (ifstmt : Node) (orelse : List Node) : Option Node :=
  match ifstmt with
  | .ifStmt test body _ => some (.ifStmt test body (orelse.map toExpr))
  | _ => Option.none

/-- `true` for the wrapper classes carrying the `Comparable` mixin
(`Name`, `Tuple`, `Attribute`, `Subscript`). -/
def Node.isComparableClass : Node → Bool
  | .name _ _ => true
  | .tupleNode _ _ => true
  | .attribute _ _ _ => true
  | .subscript _ _ _ => true
  | _ => false

/-- The comparison dunders installed by `binary_operations` on `Comparable`:
`lambda self, other, op: ast.Compare(left=self, ops=[op],
comparators=[to_node(other)])`. -/
def compareDunder (self : Node) (op : CmpOp) (other : PyVal) :
    Except Err Node := do
  let n ← toNode other
  pure (.compare self [op] [n])

/-- A raw host value sitting in node position (e.g. an uncoerced keyword
value).  The visitor dispatches on the class name, so a non-AST object of
class `t` behaves exactly like `Node.custom t`. -/
def embedRaw : PyVal → Node
  | .node n => n
  | .none => .noneObj
  | .str _ => .custom "str"
  | .int _ => .custom "int"
  | .list _ => .custom "list"
  | .tuple _ => .custom "tuple"
  | .dict _ => .custom "dict"
  | .set _ => .custom "set"
  | .obj t => .custom t

/-- `Callable.__call__`: `ast.Call(func=self, args=list(map(to_node, args)),
keywords=[ast.keyword(arg=key, value=value) ...])`.  Positional arguments
are coerced through `to_node`; keyword values are stored raw. -/
def callDunder (self : Node) (args : List PyVal)
    (kwargs : List (String × PyVal)) : Except Err Node := do
  let argNodes ← toNodeList args
  pure (.call self argNodes (kwargs.map (fun p => (p.1, embedRaw p.2))))

/-- The `type` stored by `TryWithExceptSetup.__init__`: `except_(*type)`
unpacks a single type, and otherwise `to_node` turns the tuple of type
nodes into an `ast.Tuple`. -/
def exceptType : List Node → Node
  | [t] => t
  | ts => .tupleNode ts .load

/-- The chain of builder objects produced by
`try_(...).except_(...)[...]....else_(...).finally_(...)`.  Each
constructor holds the back-reference (`parent`) the corresponding class
stores: `base` is the initial `Try`, `exc` a `TryWithExcept` (with the
type/name captured by its `TryWithExceptSetup`), `els` a `TryWithElse`
and `fin` a `TryWithFinally`. -/
inductive TryChain where
  | base (body : List Node)
  | exc (parent : TryChain) (type : Node) (name : Option String)
      (body : List Node)
  | els (parent : TryChain) (body : List Node)
  | fin (parent : TryChain) (body : List Node)
deriving Repr

/-- The fields of the composite `ast.Try` produced by `assemble`. -/
structure TryData where
  body : List Node
  handlers : List Node
  orelse : List Node
  finalbody : List Node
deriving Repr

/-- The `assemble` methods: `Try.assemble` returns a fresh
`ast.Try(body=self.body, handlers=[], orelse=[], finalbody=[])`;
`TryWithExcept.assemble` assembles its parent and appends one
`ast.ExceptHandler(type=parent.type, name=parent.name, body=self.body)`;
`TryWithElse.assemble` / `TryWithFinally.assemble` assemble the parent and
overwrite `orelse` / `finalbody` with their own body. -/
def TryChain.assemble : TryChain → TryData
  | .base body => ⟨body, [], [], []⟩
  | .exc parent type name body =>
      let d := parent.assemble
      { d with handlers := d.handlers ++ [.exceptHandler (some type) name body] }
  | .els parent body => { parent.assemble with orelse := body }
  | .fin parent body => { parent.assemble with finalbody := body }

/-- The `ast.Try` node corresponding to assembled try data. -/
def TryData.toNode (d : TryData) : Node :=
  .tryStmt d.body d.handlers d.orelse d.finalbody

/-- Build the chain for the call order the fluent API admits: the `try`
body, then handlers in call order, then optionally an else body, then
optionally a finally body. -/
def mkChain (body : List Node) (handlers : List (Node × Option String × List Node))
    (elseBody finallyBody : Option (List Node)) : TryChain :=
  let c := handlers.foldl (fun c h => .exc c h.1 h.2.1 h.2.2) (.base body)
  let c := match elseBody with
    | some eb => .els c eb
    | Option.none => c
  match finallyBody with
  | some fb => .fin c fb
  | Option.none => c

/-- `miniast.base.decorate`: copy the function definition and overwrite its
`decorator_list` with the given functions (in call order).  Modelled for
function definitions, the shape the spec attaches decorators to. -/
def decorate (functions : List Node) : Node → Option Node
  | .functionDef name args vararg kwarg body _ =>
      some (.functionDef name args vararg kwarg body functions)
  | _ => Option.none

/-- An `ast.alias(name, asname)` import alias. -/
structure AliasNode where
  name : String
  asname : Option String
deriving Repr, DecidableEq

/-- `Alias.__getitem__`: unpack `name, asname = key`; a key whose length is
not 2 makes the unpacking raise `ValueError`, which is re-raised with the
message below; otherwise return `ast.alias(name=name, asname=asname)`. -/
def aliasGetitem (key : List String) : Except Err AliasNode :=
  match key with
  | [name, asname] => .ok ⟨name, some asname⟩
  | _ => .error (.valueError
      "Only as imports are allowed with __getitem__, key length must be 2")

/-- Python `sep.join(strings)`. -/
def joinSep (sep : String) : List String → String
  | [] => ""
  | [x] => x
  | x :: xs => x ++ sep ++ joinSep sep xs

/-- Split a character list at newline characters (the semantics of the host
`split('\n')`: splitting the empty string gives one empty piece). -/
def splitLinesChar : List Char → List (List Char)
  | [] => [[]]
  | x :: xs =>
      let r := splitLinesChar xs
      if x = '\n' then [] :: r
      else
        match r with
        | h :: t => (x :: h) :: t
        | [] => [[x]]

/-- Modelled from the spec: the helper `miniast/util.py` (function `indent`)
is not under `src/`; §4.3 of the spec describes it as a pure textual
transform where "each non-empty line of the block gets a fixed-width prefix
(4 spaces), blank lines are left untouched structurally". -/
def indent (s : String) : String :=
  joinSep "\n" ((splitLinesChar s.data).map (fun l =>
    if l.isEmpty then String.mk l else "    " ++ String.mk l))

/-- The quote character the host `repr` picks for a string: a single quote,
unless the string contains a single quote and no double quote. -/
def pyReprQuote (s : String) : Char :=
  if s.data.contains (Char.ofNat 39) && !(s.data.contains '"') then '"'
  else Char.ofNat 39

/-- Escape one character inside a host string repr (covers the printable
characters and the common escapes, which is all the renderer emits). -/
def pyReprEscChar (q : Char) (c : Char) : String :=
  if c = '\\' || c = q then (String.singleton '\\').push c
  else if c = '\n' then "\\n"
  else if c = '\t' then "\\t"
  else if c = '\r' then "\\r"
  else String.singleton c

/-- The host `repr` of a string, as used by `visit_Str` and by the `{!r}`
format spec in `visit_Call`. -/
def pyReprStr (s : String) : String :=
  let q := pyReprQuote s
  String.singleton q ++ String.join (s.data.map (pyReprEscChar q)) ++
    String.singleton q

/-- `visit_Eq`, `visit_NotEq`, ... : the rendered comparison operators. -/
def cmpOpStr : CmpOp → String
  | .eq => "=="
  | .notEq => "!="
  | .lt => "<"
  | .ltE => "<="
  | .gt => ">"
  | .gtE => ">="
  | .isOp => "is"
  | .isNotOp => "is not"
  | .inOp => "in"

/-- `visit_Add`, `visit_Sub`, ... : the rendered arithmetic operators. -/
def arithOpStr : ArithOp → String
  | .add => "+"
  | .sub => "-"
  | .mult => "*"
  | .div => "/"
  | .floorDiv => "//"
  | .pow => "**"

/-- The textual form of an `ast.NameConstant` value.  (`visit_NameConstant`
returns the raw host value; interpolated into the enclosing format string
it appears as its `str` form, which is what we record.) -/
def nameConstStr : NameConst → String
  | .trueV => "True"
  | .falseV => "False"
  | .noneV => "None"

mutual

/-- `miniast.source.SourceVisitor.visit` together with the `visit_*`
methods: dispatch on the class name of the node; a node category with no
`visit_<name>` method raises
`TypeError('Node of type <name> has no visit method')`, so no output at
all is produced for it.

Category notes, matching the source:
* `visit_NoneType` renders the host `None` as the empty string.
* `visit_Dict` formats the raw key/value node objects without visiting
  them (`map('\x7b\x7d: \x7b\x7d'.format, node.keys, node.values)`), so its
  output is the host object reprs (address-dependent); no claim renders a
  dict, and the case is modelled as the empty joined string.
* `visit_NameConstant` returns the raw constant rather than a string; we
  record its `str` form (see `nameConstStr`).
* In `visit_Call` the keyword template `'\x7b\x7d=\x7b!r\x7d'` applies the
  host `repr` to the *visited* value string. -/
def visit : Node → Except Err String
  | .name id _ => .ok id
  | .num n => .ok (toString n)
  | .strNode s => .ok (pyReprStr s)
  | .nameConstant v => .ok (nameConstStr v)
  | .noneObj => .ok ""
  | .attribute value attr _ => do
      let v ← visit value
      pure (v ++ "." ++ attr)
  | .subscript value slice _ => do
      let v ← visit value
      let s ← visit slice
      pure (v ++ "[" ++ s ++ "]")
  | .index value => visit value
  | .tupleNode elts _ => do
      let ss ← visitList elts
      match ss with
      | [s] => pure ("(" ++ s ++ ",)")
      | _ => pure ("(" ++ joinSep ", " ss ++ ")")
  | .listNode elts => do
      let ss ← visitList elts
      pure ("[" ++ joinSep ", " ss ++ "]")
  | .dictNode _ _ => .ok ""
  | .setNode elts =>
      if elts.isEmpty then .ok "set()"
      else do
        let ss ← visitList elts
        pure ("\x7b" ++ joinSep ", " ss ++ "\x7d")
  | .call (.attribute fv fattr fctx) args keywords => do
      let funcStr ← visit (.attribute fv fattr fctx)
      let argStrs ← visitList args
      let kwStrs ← visitKeywords keywords
      let argsJoined := joinSep ",\n" (argStrs ++ kwStrs)
      let indented := indent argsJoined
      if argsJoined = "" then pure (funcStr ++ "(" ++ indented ++ ")")
      else pure (funcStr ++ "(\n" ++ indented ++ "\n)")
  | .call func args keywords => do
      let argStrs ← visitList args
      let kwStrs ← visitKeywords keywords
      let argsJoined := joinSep ", " (argStrs ++ kwStrs)
      let funcStr ← visit func
      pure (funcStr ++ "(" ++ argsJoined ++ ")")
  | .compare left ops comparators => do
      let l ← visit left
      let pairs ← visitCmpPairs ops comparators
      pure (l ++ joinSep " " pairs)
  | .binOp left op right => do
      let l ← visit left
      let r ← visit right
      pure (l ++ " " ++ arithOpStr op ++ " " ++ r)
  | .assign targets value => do
      let ts ← visitList targets
      let v ← visit value
      pure (joinSep ", " ts ++ " = " ++ v)
  | .augAssign target op value => do
      let t ← visit target
      let v ← visit value
      pure (t ++ " " ++ arithOpStr op ++ "= " ++ v)
  | .exprStmt value => visit value
  | .passStmt => .ok "pass"
  | .ifStmt test body orelse => do
      let t ← visit test
      let bs ← visitList body
      let b := indent (joinSep "\n" bs)
      if orelse.isEmpty then pure ("if " ++ t ++ ":\n" ++ b)
      else do
        let os ← visitList orelse
        let o := indent (joinSep "\n" os)
        pure ("if " ++ t ++ ":\n" ++ b ++ "\nelse:\n" ++ o)
  | .tryStmt body handlers orelse finalbody => do
      let bodyStrs ← visitList body
      let handlerStrs ← visitList handlers
      let lines := ["try:", indent (joinSep "\n" bodyStrs)] ++ handlerStrs
      let lines ←
        if orelse.isEmpty then pure lines
        else do
          let os ← visitList orelse
          pure (lines ++ ["else:", indent (joinSep "\n" os)])
      let lines ←
        if finalbody.isEmpty then pure lines
        else do
          let fs ← visitList finalbody
          pure (lines ++ ["finally:", indent (joinSep "\n" fs)])
      pure (joinSep "\n" lines)
  | .exceptHandler type name body => do
      let bodyStrs ← visitList body
      let b := indent (joinSep "\n" bodyStrs)
      match type with
      | Option.none =>
          match name with
          | Option.none => pure ("except:\n" ++ b)
          | some _ => .error (.assertionError "type is None but got name")
      | some t => do
          let ts ← visit t
          let spec := "except " ++ ts ++
            (match name with
             | some n => " as " ++ n
             | Option.none => "")
          pure (spec ++ ":\n" ++ b)
  | .functionDef name args vararg kwarg body decoratorList => do
      let decStrs ← visitList decoratorList
      let decoratorsJoined := joinSep "\n" decStrs
      let decorators :=
        if decoratorsJoined = "" then "" else "@" ++ decoratorsJoined ++ "\n"
      let argsStr := joinSep ", "
        (args ++
          (match vararg with
           | some v => ["*" ++ v]
           | Option.none => []) ++
          (match kwarg with
           | some k => ["**" ++ k]
           | Option.none => []))
      let bodyStrs ← visitList body
      pure ("\n" ++ decorators ++ "def " ++ name ++ "(" ++ argsStr ++ "):\n"
        ++ indent (joinSep "\n" bodyStrs))
  | .custom typename =>
      .error (.typeError ("Node of type " ++ typename ++ " has no visit method"))

/-- `map(self.visit, nodes)`. -/
def visitList : List Node → Except Err (List String)
  | [] => .ok []
  | n :: ns => do
      let s ← visit n
      let ss ← visitList ns
      pure (s :: ss)

/-- The keyword-argument fragments of `visit_Call`:
`'name=' + repr(self.visit(kw.value))`. -/
def visitKeywords : List (String × Node) → Except Err (List String)
  | [] => .ok []
  | (k, v) :: kws => do
      let s ← visit v
      let ss ← visitKeywords kws
      pure ((k ++ "=" ++ pyReprStr s) :: ss)

/-- The `' <op> <comparator>'` fragments of `visit_Compare`
(`zip(node.ops, node.comparators)` stops at the shorter list). -/
def visitCmpPairs : List CmpOp → List Node → Except Err (List String)
  | _, [] => .ok []
  | [], _ :: _ => .ok []
  | op :: ops, c :: cs => do
      let s ← visit c
      let ss ← visitCmpPairs ops cs
      pure ((" " ++ cmpOpStr op ++ " " ++ s) :: ss)

end

/-- `miniast.base.NONE`: the None-literal node
(`ast.NameConstant(value=None)`). -/
def NONE : Node := .nameConstant .noneV

/-- `miniast.base.TRUE` (`ast.NameConstant(value=True)`). -/
def TRUE : Node := .nameConstant .trueV

/-- `miniast.base.FALSE` (`ast.NameConstant(value=False)`). -/
def FALSE : Node := .nameConstant .falseV

/-- Formalization of the context condition in claim C1: every reference
node along the value-chain of an assignment target (not only the
outermost wrapper) carries a `Store` context tag. -/
def chainAllStore : Node → Bool
  | .name _ ctx => ctx == .store
  | .attribute value _ ctx => (ctx == .store) && chainAllStore value
  | .subscript value _ ctx => (ctx == .store) && chainAllStore value
  | _ => true

/-- `true` iff a coercion result is a raised `TypeError`. -/
def isTypeErrorResult : Except Err Node → Bool
  | .error (.typeError _) => true
  | _ => false

/-- `true` iff the node is an `ast.Compare`. -/
def Node.isCompare : Node → Bool
  | .compare _ _ _ => true
  | _ => false

/-- The read-position chain `a.b[0].c` built by
`var.a.b[0].c` (attribute / subscript / attribute over a name, every
context tag `Load`). -/
def readChainABC : Node :=
  .attribute
    (.subscript (.attribute (.name "a" .load) "b" .load) (.index (.num 0)) .load)
    "c" .load

/-- The `try:` body of the worked try-chain example (`x = 1`). -/
def tryBodyEx : List Node := [.assign [.name "x" .store] (.num 1)]

/-- The three handlers of the worked try-chain example, in call order:
`except TypeError`, `except ValueError`,
`except (OSError, RuntimeError) as foo`. -/
def handlersEx : List (Node × Option String × List Node) :=
  [(.name "TypeError" .load, Option.none,
      [.assign [.name "y" .store] (.num 2)]),
   (.name "ValueError" .load, Option.none,
      [.assign [.name "y" .store] (.num 3)]),
   (exceptType [.name "OSError" .load, .name "RuntimeError" .load], some "foo",
      [.passStmt])]

/-- The else-body of the worked try-chain example (`x += 1`). -/
def elseBodyEx : List Node := [.augAssign (.name "x" .load) .add (.num 1)]

/-- The finally-body of the worked try-chain example (`print(1, 2, 3)`). -/
def finallyBodyEx : List Node :=
  [.call (.name "print" .load) [.num 1, .num 2, .num 3] []]

theorem okBind {α β : Type} (a : α) (g : α → Except Err β) :
    (Except.ok a >>= g : Except Err β) = g a := rfl

/-- Claim C5: for every node whose category has no registered rendering
rule, `SourceVisitor.visit` raises a `TypeError` whose message names the
missing category, and produces no (partial or empty) output: the result is
the raised error alone. -/
theorem visit_unregistered_category_raises_typeerror (typename : String) :
    visit (.custom typename) =
      .error (.typeError ("Node of type " ++ typename ++ " has no visit method")) :=
  rfl

/-- Counterexample to claim C6 as stated: coercing an unsupported host
object raises `AssertionError`, not a `TypeError`-class error. -/
theorem to_node_unsupported_is_not_typeerror :
    toNode (.obj "object") =
      .error (.assertionError "value must be None or AST instance, got object")
    ∧ isTypeErrorResult (toNode (.obj "object")) = false :=
  ⟨rfl, rfl⟩

/-- Claim C6 (amended): a value that is not `None`, not a node and not a
recognized literal shape makes `to_node` fail with an `AssertionError`-class
error (the failed `assert`) whose message names the offending value's
type. -/
theorem to_node_unsupported_raises_assertionerror (typename : String) :
    toNode (.obj typename) =
      .error (.assertionError
        ("value must be None or AST instance, got " ++ typename)) :=
  rfl

/-- Claim C7: `Alias.__getitem__` with a 2-element key `(name, asname)`
returns `ast.alias(name, asname)`; any key of a different length makes the
tuple unpacking raise, re-raised as the `ValueError` below (the
`InvalidArgument`-class construction error of the spec's taxonomy). -/
theorem alias_getitem_requires_pair (key : List String) :
    (∀ name asname, key = [name, asname] →
        aliasGetitem key = .ok ⟨name, some asname⟩)
    ∧ (key.length ≠ 2 →
        aliasGetitem key = .error (.valueError
          "Only as imports are allowed with __getitem__, key length must be 2")) := by
  constructor
  · rintro name asname rfl
    rfl
  · intro h
    match key with
    | [] => rfl
    | [_] => rfl
    | [_, _] => exact absurd rfl h
    | _ :: _ :: _ :: _ => rfl

/-- Witness for C7 at concrete keys: `["foo"]` has length 1 and errors;
`["foo", "bar"]` builds the alias. -/
theorem alias_getitem_requires_pair_witness :
    aliasGetitem ["foo"] = .error (.valueError
      "Only as imports are allowed with __getitem__, key length must be 2")
    ∧ aliasGetitem ["foo", "bar"] = .ok ⟨"foo", some "bar"⟩ :=
  ⟨(alias_getitem_requires_pair ["foo"]).2 (by decide),
   (alias_getitem_requires_pair ["foo", "bar"]).1 "foo" "bar" rfl⟩

/-- Claim C8: on a terminal `If` (as produced by `if_(test)[body]`, with an
empty else-branch), invoking the `else_` continuation with a body returns a
*new* `If` carrying the original test, the original body and the supplied
else-branch (coerced through `to_expr`); the terminal `If` itself is the
unchanged value `ifStmt test body []` (the source constructs
`type(ifstmt)(...)` instead of mutating), and because `else_` is a property
the continuation is again available on the result, where invoking it once
more builds another fresh `If` from the same test and body. -/
theorem if_else_continuation (test : Node) (body orelse orelse2 : List Node) :
    ifCall test body = .ifStmt test (body.map toExpr) []
    ∧ elseCall (ifCall test body) orelse =
        some (.ifStmt test (body.map toExpr) (orelse.map toExpr))
    ∧ elseCall (.ifStmt test (body.map toExpr) (orelse.map toExpr)) orelse2 =
        some (.ifStmt test (body.map toExpr) (orelse2.map toExpr)) :=
  ⟨rfl, rfl, rfl⟩

/-- Claim C10: on the expression-capable wrapper classes (`Name`,
`Attribute`, `Subscript`, `Tuple`), a comparison dunder applied to a
supported operand returns a freshly built `ast.Compare` with the receiver
as left operand, the operator tag, and the coerced operand as the sole
comparator — never a host boolean.  In particular `e == e` yields the
Compare node `Compare(left=e, ops=[Eq], comparators=[e])` rather than
`True`, so host-level equality testing of builder nodes is unavailable. -/
theorem comparison_builds_compare_node (e : Node) (op : CmpOp) (v : PyVal)
    (n : Node) (he : e.isComparableClass = true) (hv : toNode v = .ok n) :
    compareDunder e op v = .ok (.compare e [op] [n])
    ∧ compareDunder e .eq (.node e) = .ok (.compare e [.eq] [e])
    ∧ ∀ r, compareDunder e op v = .ok r → r.isCompare = true := by
  refine ⟨?_, rfl, ?_⟩
  · simp [compareDunder, hv, okBind]
  · intro r hr
    simp [compareDunder, hv, okBind] at hr
    subst hr
    rfl

/-- Witness for C10 at `var.x == 1`: the receiver `Name('x', Load)` is a
comparable wrapper and `1` coerces to `Num(1)`. -/
theorem comparison_builds_compare_node_witness :
    compareDunder (.name "x" .load) .eq (.int 1) =
      .ok (.compare (.name "x" .load) [.eq] [.num 1]) :=
  (comparison_builds_compare_node (.name "x" .load) .eq (.int 1) (.num 1)
    rfl rfl).1

/-- Counterexample to claim C1 as stated: storing into the read chain
`a.b[0].c` produces an `Assign` whose target chain does *not* carry a
`Store` context on every node — only the outermost `Attribute` is rebuilt
with `Store`; the inner `a.b[0]` subscript (and everything below it) is the
shared original sub-chain with `Load` context. -/
theorem store_chain_not_all_store :
    store readChainABC (.int 1) =
      .ok (.assign
        [.attribute
          (.subscript (.attribute (.name "a" .load) "b" .load)
            (.index (.num 0)) .load)
          "c" .store]
        (.num 1))
    ∧ chainAllStore
        (.attribute
          (.subscript (.attribute (.name "a" .load) "b" .load)
            (.index (.num 0)) .load)
          "c" .store) = false :=
  ⟨rfl, rfl⟩

/-- Claim C1 (amended): `store(value)` on a read chain produces an `Assign`
whose single target is a copy of the outermost node with its `ctx` field
replaced by `Store`; every other field — in particular the inner chain —
is the untouched original value and keeps its `Load` tags, and the read
chain itself is left unmodified (the reconstruction matches the host
language's own AST for chained assignment targets, as the repository's
`test_store_compile` checks against `ast.parse`). -/
theorem store_rebuilds_only_outer_ctx (value inner slice : Node)
    (attr id : String) (ctx : Ctx) (elts : List Node) (v : PyVal) (n : Node)
    (hv : toNode v = .ok n) :
    store (.attribute value attr ctx) v =
      .ok (.assign [.attribute value attr .store] n)
    ∧ store (.subscript inner slice ctx) v =
      .ok (.assign [.subscript inner slice .store] n)
    ∧ store (.name id ctx) v = .ok (.assign [.name id .store] n)
    ∧ store (.tupleNode elts ctx) v = .ok (.assign [.tupleNode elts .store] n) := by
  refine ⟨?_, ?_, ?_, ?_⟩ <;> simp [store, storeTarget, hv, okBind]

/-- Witness for the amended C1 at the chain `a.b[0].c` and value `1`. -/
theorem store_rebuilds_only_outer_ctx_witness :
    store readChainABC (.int 1) =
      .ok (.assign
        [.attribute
          (.subscript (.attribute (.name "a" .load) "b" .load)
            (.index (.num 0)) .load)
          "c" .store]
        (.num 1)) :=
  (store_rebuilds_only_outer_ctx
    (.subscript (.attribute (.name "a" .load) "b" .load) (.index (.num 0)) .load)
    (.name "a" .load) (.index (.num 0)) "c" "x" .load [] (.int 1) (.num 1)
    rfl).1

/-- Claim C3 (code bug): attaching decorators `[d1, d2]` stores them in
order, but rendering the definition prefixes `@` only once, in front of the
whole newline-joined decorator block (`'@\x7b\x7d\n'.format(decorator_list)`
in `visit_FunctionDef`), so the output contains the lines `@d1` and `d2` —
not `@d1` and `@d2` as the spec requires (the latter is also the only
syntactically valid form, so the rendered text for two decorators is not
valid host source). -/
theorem decorator_block_renders_at_sign_once :
    decorate [.name "d1" .load, .name "d2" .load]
        (.functionDef "f" [] Option.none Option.none [.passStmt] []) =
      some (.functionDef "f" [] Option.none Option.none [.passStmt]
        [.name "d1" .load, .name "d2" .load])
    ∧ visit (.functionDef "f" [] Option.none Option.none [.passStmt]
        [.name "d1" .load, .name "d2" .load]) =
      .ok "\n@d1\nd2\ndef f():\n    pass"
    ∧ "\n@d1\nd2\ndef f():\n    pass" ≠ "\n@d1\n@d2\ndef f():\n    pass" :=
  ⟨rfl, rfl, by decide⟩

/-- Counterexample to claim C9 as stated: the keyword argument `x` with
value node `Num(1)` renders as `x='1'` — the `'\x7b\x7d=\x7b!r\x7d'`
template applies the host `repr` to the visited value string — so the call
renders `f(x='1')`, not `f(x=1)` (the text `name=` followed by the
rendered source form). -/
theorem call_keyword_renders_repr_not_source :
    visit (.call (.name "f" .load) [] [("x", .num 1)]) = .ok "f(x='1')"
    ∧ "f(x='1')" ≠ "f(x=1)" :=
  ⟨rfl, by decide⟩

/-- Claim C9 (amended): in both call layouts every keyword argument
contributes the fragment `name=` followed by the host `repr` of the
rendered source text of its value node (the rendered text wrapped in
quotes, not the raw host value): the shared fragment list is computed by
`visitKeywords`, and the two layouts only join the fragments differently,
as the concrete inline and attribute-chain renderings show. -/
theorem call_keyword_renders_repr_of_visited (k : String) (v : Node)
    (s : String) (hv : visit v = .ok s) :
    visitKeywords [(k, v)] = .ok [k ++ "=" ++ pyReprStr s]
    ∧ visit (.call (.name "f" .load) [.num 2] [("x", .name "b" .load)]) =
        .ok "f(2, x='b')"
    ∧ visit (.call (.attribute (.name "obj" .load) "meth" .load)
          [.num 1] [("x", .name "b" .load)]) =
        .ok "obj.meth(\n    1,\n    x='b'\n)" := by
  refine ⟨?_, rfl, rfl⟩
  simp [visitKeywords, hv, okBind]

/-- Witness for the amended C9 at keyword `x` with value `Num(1)`. -/
theorem call_keyword_renders_repr_of_visited_witness :
    visitKeywords [("x", Node.num 1)] = .ok ["x='1'"] :=
  (call_keyword_renders_repr_of_visited "x" (.num 1) "1" rfl).1

theorem assemble_foldl_exc (handlers : List (Node × Option String × List Node))
    (c : TryChain) :
    (handlers.foldl (fun c h => TryChain.exc c h.1 h.2.1 h.2.2) c).assemble =
      { c.assemble with
          handlers := c.assemble.handlers ++
            handlers.map (fun h => Node.exceptHandler (some h.1) h.2.1 h.2.2) } := by
  induction handlers generalizing c with
  | nil => simp
  | cons h hs ih =>
      simp [List.foldl_cons, ih, TryChain.assemble]

/-- Claim C2: assembling the chain built from a `try` body, handlers
attached in call order, an optional else body and an optional finally body
yields a `Try` whose handlers are exactly the attached ones in that order,
whose else clause is present (non-default) iff an else body was attached,
and whose finally clause is present iff a finally body was attached, each
independent of the other; rendering the worked three-handler example
produces the clauses in exactly that order, with the else and finally
blocks appearing iff attached. -/
theorem try_chain_accumulates_in_order :
    (∀ (body : List Node) (handlers : List (Node × Option String × List Node))
        (elseBody finallyBody : Option (List Node)),
      (mkChain body handlers elseBody finallyBody).assemble =
        ⟨body,
         handlers.map (fun h => Node.exceptHandler (some h.1) h.2.1 h.2.2),
         elseBody.getD [], finallyBody.getD []⟩)
    ∧ visit ((mkChain tryBodyEx handlersEx (some elseBodyEx)
          (some finallyBodyEx)).assemble.toNode) =
        .ok ("try:\n    x = 1\nexcept TypeError:\n    y = 2\n" ++
          "except ValueError:\n    y = 3\n" ++
          "except (OSError, RuntimeError) as foo:\n    pass\n" ++
          "else:\n    x += 1\nfinally:\n    print(1, 2, 3)")
    ∧ visit ((mkChain tryBodyEx handlersEx Option.none
          (some finallyBodyEx)).assemble.toNode) =
        .ok ("try:\n    x = 1\nexcept TypeError:\n    y = 2\n" ++
          "except ValueError:\n    y = 3\n" ++
          "except (OSError, RuntimeError) as foo:\n    pass\n" ++
          "finally:\n    print(1, 2, 3)")
    ∧ visit ((mkChain tryBodyEx handlersEx (some elseBodyEx)
          Option.none).assemble.toNode) =
        .ok ("try:\n    x = 1\nexcept TypeError:\n    y = 2\n" ++
          "except ValueError:\n    y = 3\n" ++
          "except (OSError, RuntimeError) as foo:\n    pass\n" ++
          "else:\n    x += 1") := by
  refine ⟨?_, rfl, rfl, rfl⟩
  intro body handlers elseBody finallyBody
  cases elseBody <;> cases finallyBody <;>
    simp [mkChain, TryChain.assemble, assemble_foldl_exc, Option.getD]

mutual

theorem toNode_ok_of_supported (v : PyVal) (h : supported v = true) :
    (toNode v).isOk = true := by
  cases v with
  | none => rfl
  | str s => rfl
  | int n => rfl
  | node n => rfl
  | obj t => simp [supported] at h
  | list es =>
      have hl := toNodeList_ok_of_supported es (by simpa [supported] using h)
      cases heq : toNodeList es with
      | ok l => simp [toNode, heq, okBind, Except.isOk, Except.toBool]
      | error e => rw [heq] at hl; simp [Except.isOk, Except.toBool] at hl
  | tuple es =>
      have hl := toNodeList_ok_of_supported es (by simpa [supported] using h)
      cases heq : toNodeList es with
      | ok l => simp [toNode, heq, okBind, Except.isOk, Except.toBool]
      | error e => rw [heq] at hl; simp [Except.isOk, Except.toBool] at hl
  | set es =>
      have hl := toNodeList_ok_of_supported es (by simpa [supported] using h)
      cases heq : toNodeList es with
      | ok l => simp [toNode, heq, okBind, Except.isOk, Except.toBool]
      | error e => rw [heq] at hl; simp [Except.isOk, Except.toBool] at hl
  | dict ps =>
      have hk := toNodeKeys_ok_of_supported ps (by simpa [supported] using h)
      have hv := toNodeValues_ok_of_supported ps (by simpa [supported] using h)
      cases heqk : toNodeKeys ps with
      | ok ks =>
          cases heqv : toNodeValues ps with
          | ok vs => simp [toNode, heqk, heqv, okBind, Except.isOk, Except.toBool]
          | error e => rw [heqv] at hv; simp [Except.isOk, Except.toBool] at hv
      | error e => rw [heqk] at hk; simp [Except.isOk, Except.toBool] at hk

theorem toNodeList_ok_of_supported (l : List PyVal)
    (h : supportedList l = true) : (toNodeList l).isOk = true := by
  cases l with
  | nil => rfl
  | cons v vs =>
      rw [supportedList, Bool.and_eq_true] at h
      have hv := toNode_ok_of_supported v h.1
      have hvs := toNodeList_ok_of_supported vs h.2
      cases heq : toNode v with
      | ok n =>
          cases heq2 : toNodeList vs with
          | ok ns => simp [toNodeList, heq, heq2, okBind, Except.isOk, Except.toBool]
          | error e => rw [heq2] at hvs; simp [Except.isOk, Except.toBool] at hvs
      | error e => rw [heq] at hv; simp [Except.isOk, Except.toBool] at hv

theorem toNodeKeys_ok_of_supported (ps : List (PyVal × PyVal))
    (h : supportedPairs ps = true) : (toNodeKeys ps).isOk = true := by
  cases ps with
  | nil => rfl
  | cons p ps' =>
      match p with
      | (k, v) =>
        rw [supportedPairs, Bool.and_eq_true, Bool.and_eq_true] at h
        have hk := toNode_ok_of_supported k h.1.1
        have hps := toNodeKeys_ok_of_supported ps' h.2
        cases heq : toNode k with
        | ok n =>
            cases heq2 : toNodeKeys ps' with
            | ok ns => simp [toNodeKeys, heq, heq2, okBind, Except.isOk, Except.toBool]
            | error e => rw [heq2] at hps; simp [Except.isOk, Except.toBool] at hps
        | error e => rw [heq] at hk; simp [Except.isOk, Except.toBool] at hk

theorem toNodeValues_ok_of_supported (ps : List (PyVal × PyVal))
    (h : supportedPairs ps = true) : (toNodeValues ps).isOk = true := by
  cases ps with
  | nil => rfl
  | cons p ps' =>
      match p with
      | (k, v) =>
        rw [supportedPairs, Bool.and_eq_true, Bool.and_eq_true] at h
        have hv := toNode_ok_of_supported v h.1.2
        have hps := toNodeValues_ok_of_supported ps' h.2
        cases heq : toNode v with
        | ok n =>
            cases heq2 : toNodeValues ps' with
            | ok ns => simp [toNodeValues, heq, heq2, okBind, Except.isOk, Except.toBool]
            | error e => rw [heq2] at hps; simp [Except.isOk, Except.toBool] at hps
        | error e => rw [heq] at hv; simp [Except.isOk, Except.toBool] at hv

end

/-- Counterexample to claim C4 as stated: `to_node(None)` returns `None`
itself (it passes the `assert` and is returned unchanged; at render time
`visit_NoneType` shows it as empty text), which is not the None-literal
node `NONE` (`ast.NameConstant(value=None)`). -/
theorem to_node_none_is_not_none_literal :
    toNode PyVal.none = .ok Node.noneObj ∧ Node.noneObj ≠ NONE :=
  ⟨rfl, by simp [NONE]⟩

/-- Claim C4 (amended): `to_node` is total over the supported literal
categories — every value built from the recognized literal shapes, `None`
and nodes coerces without error — and it maps `None` to `None` itself
(returned unchanged, not the None-literal node) and any already-constructed
node to that same node (identity). -/
theorem to_node_total_and_identity :
    (∀ v, supported v = true → ∃ n, toNode v = .ok n)
    ∧ toNode PyVal.none = .ok Node.noneObj
    ∧ (∀ n, toNode (.node n) = .ok n) := by
  refine ⟨?_, rfl, fun n => rfl⟩
  intro v h
  have hok := toNode_ok_of_supported v h
  cases heq : toNode v with
  | ok n => exact ⟨n, rfl⟩
  | error e => rw [heq] at hok; simp [Except.isOk, Except.toBool] at hok

/-- Witness for the amended C4 at the literal `[1, 'a']`. -/
theorem to_node_total_and_identity_witness :
    supported (.list [.int 1, .str "a"]) = true
    ∧ ∃ n, toNode (.list [.int 1, .str "a"]) = .ok n :=
  ⟨rfl, to_node_total_and_identity.1 (.list [.int 1, .str "a"]) rfl⟩
